import Mathlib

/-!
Shallow embedding of the HeyBoxBot connection-lifecycle and message-dispatch
engine (heybox-dev/heybox-bot).

The embedded code is the `HeyBoxBot` class: the heartbeat closure `ping`
started by the transport's open signal, the inbound classifier
`onWebsocketMsg`, and the `start` / `stop` lifecycle orchestration.  Stateful
code is modelled as explicit state passing: each operation maps a `BotState`
to a new `BotState` together with the list of observable `Effect`s it
performs (frames sent, transport close/terminate, log lines, bus posts).

External collaborators are modelled at their boundary:
* `JSON.parse` is an abstract decoder `String → Option Json` (`none` models a
  thrown `SyntaxError`); JavaScript property access, which throws on
  `undefined`/`null` receivers and otherwise yields `undefined` for missing
  keys, is modelled by `jsGet` in the `Except` monad.
* The `gugle-event` bus is not part of the repository sources; the parts the
  claims need (`post` on the `before-start` topic) are modelled from the
  spec's EventBus contract and are marked as such in their doc comments.
-/

/-- JSON values, modelling the JavaScript values produced by `JSON.parse`. -/
inductive Json where
  | null
  | bool (b : Bool)
  | num (n : Int)
  | str (s : String)
  | arr (elems : List Json)
  | obj (fields : List (String × Json))

/-- Property lookup in a decoded JSON object. -/
def lookupField (fields : List (String × Json)) (k : String) : Option Json :=
  match fields with
  | [] => none
  | (k', v) :: rest => if k' = k then some v else lookupField rest k

/-- JavaScript property access `v.k` on a possibly-undefined value: accessing a
property of `undefined` or `null` throws a `TypeError`; on any other
non-object value it yields `undefined`; on an object it yields the field or
`undefined` when the field is missing. -/
def jsGet (v : Option Json) (k : String) : Except String (Option Json) :=
  match v with
  | none => Except.error "TypeError"
  | some Json.null => Except.error "TypeError"
  | some (Json.obj fields) => Except.ok (lookupField fields k)
  | some _ => Except.ok none

/-- JavaScript strict equality `v === 's'` between a possibly-undefined value
and a string literal. -/
def isStrVal (v : Option Json) (s : String) : Bool :=
  match v with
  | some (Json.str t) => t = s
  | _ => false

/-- Observable side effects of the bot: outbound frames, timer scheduling,
transport shutdown, log lines, bus posts and log-file renames. -/
inductive Effect where
  | send (frame : String)
  | scheduleTick
  | terminate
  | close
  | logDebug (msg : String)
  | logInfo (msg : String)
  | logError (msg : String)
  | postTopic (topic : String)
  | postWebsocketMessage (raw : String)
  | postUserMessage (user : Option Json) (userMsg : Option Json)
  | postCommandMessage (user : Option Json) (commandMsg : Option Json)
  | rename (fromName : String) (toName : String)

/-- Mutable state of a `HeyBoxBot` instance: the missed-heartbeat counter
`heartbeatTimes`, the `wsOpened` flag, the working `path` (a JavaScript value,
since `start` assigns it from an untyped bus result), and the contents of the
logs directory (file names, for the rotation logic in `start`). -/
structure BotState where
  heartbeatTimes : Nat
  wsOpened : Bool
  path : Option Json
  files : List String

/-- State of a freshly constructed bot: `heartbeatTimes = 0`,
`wsOpened = false`, `path = process.cwd()`. -/
def initState (cwd : String) (files : List String) : BotState :=
  { heartbeatTimes := 0, wsOpened := false, path := some (Json.str cwd),
    files := files }

/-- One invocation of the heartbeat closure `ping`: when more than 5
heartbeats have gone unanswered, log at error severity and forcibly terminate
the transport without rescheduling; otherwise send the `PING` probe,
increment the counter and reschedule the next tick. -/
def ping (s : BotState) : BotState × List Effect :=
  if s.heartbeatTimes > 5 then
    (s, [Effect.logError "WebSocket connection lost, reconnecting...",
         Effect.terminate])
  else
    ({ s with heartbeatTimes := s.heartbeatTimes + 1 },
     [Effect.send "PING", Effect.scheduleTick])

/-- The transport's open signal: set `wsOpened` and invoke `ping` once
immediately (subsequent invocations are the scheduled ticks). -/
def wsOpen (s : BotState) : BotState × List Effect :=
  ping { s with wsOpened := true }

/-- The `stop` operation: post the (mis-named) pre-stop topic
`before-start`, close the transport only when `wsOpened` is set, then post
`after-stop`. -/
def stop (s : BotState) : BotState × List Effect :=
  (s, Effect.postTopic "before-start" ::
      ((if s.wsOpened then [Effect.close] else []) ++
       [Effect.postTopic "after-stop"]))

/-- The body of the `try` block of `onWebsocketMsg` after a successful JSON
decode: inspect `data.type`; `"5"` extracts `data.data.user_info.user_base_info`
and posts `user-message`; `"50"` extracts `data.data.sender_info` and posts
`command-message`; any other discriminator does nothing.  A `TypeError`
raised by a property access propagates as `Except.error`. -/
def classify (data : Json) : Except String (List Effect) := do
  let ty ← jsGet (some data) "type"
  if isStrVal ty "5" then
    let userMsg ← jsGet (some data) "data"
    let ui ← jsGet userMsg "user_info"
    let user ← jsGet ui "user_base_info"
    pure [Effect.postUserMessage user userMsg]
  else if isStrVal ty "50" then
    let commandMsg ← jsGet (some data) "data"
    let user ← jsGet commandMsg "sender_info"
    pure [Effect.postCommandMessage user commandMsg]
  else
    pure []

/-- JavaScript `msg.startsWith(pre)`: the frame's character sequence begins
with the given characters. -/
def strStartsWith (s pre : String) : Bool :=
  pre.data.isPrefixOf s.data

/-- JavaScript `msg.endsWith(suf)`: the frame's character sequence ends with
the given characters. -/
def strEndsWith (s suf : String) : Bool :=
  suf.data.isSuffixOf s.data

/-- The `onWebsocketMsg` handler: log the frame at debug severity; the exact
payload `PONG` resets the missed-heartbeat counter and returns; a frame that
starts with `\x7b` and ends with `\x7d` is decoded and classified, any
exception (decode failure or `TypeError` during extraction) being caught and
logged at error severity; anything else is ignored. -/
def onWebsocketMsg (decode : String → Option Json) (s : BotState)
    (msg : String) : BotState × List Effect :=
  if msg = "PONG" then
    ({ s with heartbeatTimes := 0 }, [Effect.logDebug msg])
  else if strStartsWith msg "\x7b" && strEndsWith msg "\x7d" then
    match decode msg with
    | none => (s, [Effect.logDebug msg, Effect.logError "SyntaxError"])
    | some data =>
      match classify data with
      | Except.ok effs => (s, Effect.logDebug msg :: effs)
      | Except.error e => (s, [Effect.logDebug msg, Effect.logError e])
  else
    (s, [Effect.logDebug msg])

/-- Arrival of a raw frame: the transport's message signal posts the frame on
the `websocket-message` topic, whose registered listener is
`onWebsocketMsg`. -/
def handleRawFrame (decode : String → Option Json) (s : BotState)
    (msg : String) : BotState × List Effect :=
  let (s', effs) := onWebsocketMsg decode s msg
  (s', Effect.postWebsocketMessage msg :: effs)

/-- Effect classifier: is this effect a `PING` probe send? -/
def isPingSend : Effect → Bool
  | Effect.send f => f = "PING"
  | _ => false

/-- Effect classifier: is this effect a transport termination? -/
def isTerminate : Effect → Bool
  | Effect.terminate => true
  | _ => false

/-- Effect classifier: is this effect a graceful transport close? -/
def isClose : Effect → Bool
  | Effect.close => true
  | _ => false

/-- Effect classifier: is this effect a reschedule of the heartbeat tick? -/
def isSchedule : Effect → Bool
  | Effect.scheduleTick => true
  | _ => false

/-- Effect classifier: is this effect an error-severity log line? -/
def isErrorLog : Effect → Bool
  | Effect.logError _ => true
  | _ => false

/-- Effect classifier: is this effect a post on the `user-message` topic? -/
def isUserPost : Effect → Bool
  | Effect.postUserMessage _ _ => true
  | _ => false

/-- Effect classifier: is this effect a post on the `command-message`
topic? -/
def isCommandPost : Effect → Bool
  | Effect.postCommandMessage _ _ => true
  | _ => false

/-- Effect classifier: is this effect a post on the `websocket-message`
topic? -/
def isWsPost : Effect → Bool
  | Effect.postWebsocketMessage _ => true
  | _ => false

/-- Timer-driven heartbeat run: perform up to `n` scheduled ticks, a tick
firing only while the previous invocation rescheduled one (`setTimeout` in
the `else` branch of `ping`). -/
def runHeartbeat (s : BotState) (scheduled : Bool) : Nat → BotState × List Effect
  | 0 => (s, [])
  | n + 1 =>
    if scheduled then
      let (s', effs) := ping s
      let (s'', rest) := runHeartbeat s' (effs.any isSchedule) n
      (s'', effs ++ rest)
    else (s, [])

/-- The heartbeat trace from a fresh open: the open signal's immediate `ping`
invocation followed by up to `n` scheduled ticks. -/
def heartbeatTrace (s : BotState) (n : Nat) : BotState × List Effect :=
  let (s1, e1) := wsOpen s
  let (s2, e2) := runHeartbeat s1 (e1.any isSchedule) n
  (s2, e1 ++ e2)

theorem runHeartbeat_not_scheduled (s : BotState) (n : Nat) :
    runHeartbeat s false n = (s, []) := by
  cases n <;> simp [runHeartbeat]

/-- C1: starting from a freshly opened connection with no liveness replies,
after 6 scheduled heartbeat ticks the transport has been forcibly terminated
exactly once, the termination is logged at error severity, the terminating
tick reschedules nothing, exactly 6 probes (and so no 7th) have been sent,
and any longer run is identical: no further effect ever occurs. -/
theorem heartbeat_six_ticks_terminates (s : BotState) (k : Nat)
    (h : s.heartbeatTimes = 0) :
    ((heartbeatTrace s (k + 6)).2.countP isTerminate = 1) ∧
    ((heartbeatTrace s (k + 6)).2.countP isPingSend = 6) ∧
    ((heartbeatTrace s (k + 6)).2.countP isErrorLog = 1) ∧
    ((heartbeatTrace s (k + 6)).2.countP isSchedule = 6) ∧
    heartbeatTrace s (k + 6) = heartbeatTrace s 6 := by
  obtain ⟨hb, w, p, f⟩ := s
  simp only [BotState.heartbeatTimes] at h
  subst h
  simp [heartbeatTrace, wsOpen, ping, runHeartbeat, runHeartbeat_not_scheduled,
    isTerminate, isPingSend, isErrorLog, isSchedule, List.countP, List.countP.go]

/-- C1 witness: the theorem instantiated at a concrete fresh state. -/
theorem heartbeat_six_ticks_terminates_witness :
    ((heartbeatTrace (initState "/w" []) 6).2.countP isTerminate = 1) ∧
    ((heartbeatTrace (initState "/w" []) 6).2.countP isPingSend = 6) := by
  have h := heartbeat_six_ticks_terminates (initState "/w" []) 0 rfl
  exact ⟨h.1, h.2.1⟩

/-- Modelled from the spec: a listener registered on the `before-start` topic
of the `gugle-event` bus (the bus implementation is not part of the
repository sources).  Per the EventBus contract a registration carries a
priority; the callback receives the posted arguments (here the working path)
and may return any value. -/
structure BeforeStartListener where
  priority : Int
  callback : String → Option Json

/-- Modelled from the spec: stable insertion of a listener into a
priority-descending execution list — the new listener goes after every
already-registered listener of greater or equal priority. -/
def insertListener (l : BeforeStartListener) :
    List BeforeStartListener → List BeforeStartListener
  | [] => [l]
  | x :: xs =>
    if x.priority < l.priority then l :: x :: xs else x :: insertListener l xs

/-- Modelled from the spec: listener execution order for one topic — stable
sort by priority descending, registration order breaking ties. -/
def execOrder (ls : List BeforeStartListener) : List BeforeStartListener :=
  ls.foldl (fun acc l => insertListener l acc) []

/-- Modelled from the spec: `post('before-start', bot, path)` runs the
listeners sequentially in execution order and resolves with the array of
per-listener return values. -/
def postBeforeStart (ls : List BeforeStartListener) (path : String) :
    List (Option Json) :=
  (execOrder ls).map (fun l => l.callback path)

/-- The value `start` adopts as the working path: `args[1]` of the
`before-start` post result, which is `undefined` (modelled `none`) when fewer
than two values were returned. -/
def startAdopted (ls : List BeforeStartListener) (path : String) : Option Json :=
  ((postBeforeStart ls path).get? 1).getD none

/-- The candidate names tried by the log-rotation loop in `start`: first
`ts + ".log"`, then `ts + "-" + count + ".log"` for `count = 1, 2, ...`. -/
def candName (ts : String) (c : Nat) : String :=
  if c = 0 then ts ++ ".log" else ts ++ "-" ++ toString c ++ ".log"

/-- The name the rotation loop renames `latest.log` to: the first candidate
not already present in the logs directory.  The source's `while` loop scans
candidates unboundedly; since distinct candidates must leave a free name
within `files.length + 1` attempts, the model scans that range and returns
`none` in the (unreachable for injective candidates) case that all of them
collide. -/
def rotateTarget (files : List String) (ts : String) : Option String :=
  ((List.range (files.length + 1)).find?
    (fun c => ¬ candName ts c ∈ files)).map (candName ts)

/-- The log-rotation step of `start`: when `latest.log` exists it is renamed
to the first free timestamp-suffixed candidate; otherwise nothing happens. -/
def rotateIfNeeded (files : List String) (ts : String) :
    List String × List Effect :=
  if "latest.log" ∈ files then
    match rotateTarget files ts with
    | some name =>
      (name :: files.erase "latest.log", [Effect.rename "latest.log" name])
    | none => (files, [])
  else (files, [])

/-- The `start` orchestration: post `before-start` and adopt `args[1]` of its
result as the working path, rotate a pre-existing `latest.log` out of the
way, create the logger (modelled from the spec: the logging collaborator
creates `latest.log`, the run's rotating log file), log the startup line,
bind the three domain listeners and the transport's message signal, and post
`after-start` fire-and-forget. -/
def startCore (ls : List BeforeStartListener) (ts : String)
    (requestedPath : String) (s : BotState) : BotState × List Effect :=
  let adopted := startAdopted ls requestedPath
  let (files1, rotEffs) := rotateIfNeeded s.files ts
  let files2 := "latest.log" :: files1
  ({ s with path := adopted, files := files2 },
   Effect.postTopic "before-start" ::
     rotEffs ++
       [Effect.logInfo "HeyBox Bot starting...",
        Effect.postTopic "after-start"])

/-- The operations that can act on a bot instance: the transport's open
signal, a scheduled heartbeat tick, arrival of a raw inbound frame, `stop`,
and `start` (with its bus listeners and the timestamp the rotation uses). -/
inductive BotOp where
  | openSignal
  | tick
  | frame (msg : String)
  | stopOp
  | startOp (ls : List BeforeStartListener) (ts : String) (path : String)

/-- One operation acting on the bot state. -/
def opStep (decode : String → Option Json) (s : BotState) :
    BotOp → BotState × List Effect
  | BotOp.openSignal => wsOpen s
  | BotOp.tick => ping s
  | BotOp.frame msg => handleRawFrame decode s msg
  | BotOp.stopOp => stop s
  | BotOp.startOp ls ts path => startCore ls ts path s

/-- Run a sequence of operations, accumulating effects. -/
def runOps (decode : String → Option Json) (s : BotState) :
    List BotOp → BotState × List Effect
  | [] => (s, [])
  | op :: rest =>
    let (s', effs) := opStep decode s op
    let (s'', effs') := runOps decode s' rest
    (s'', effs ++ effs')

/-- Is this operation the processing of a liveness reply (an inbound frame
with exact payload `PONG`)? -/
def isReply : BotOp → Bool
  | BotOp.frame msg => msg = "PONG"
  | _ => false

/-- Run a sequence of operations while tracking the number of probe frames
sent since the most recent liveness reply (the ghost counter for C2). -/
def runCount (decode : String → Option Json) (sc : BotState × Nat) :
    List BotOp → BotState × Nat
  | [] => sc
  | op :: rest =>
    let (s', effs) := opStep decode sc.1 op
    let c' := if isReply op then 0 else sc.2 + effs.countP isPingSend
    runCount decode (s', c') rest

theorem onWebsocketMsg_state_of_ne_pong (decode : String → Option Json)
    (s : BotState) (msg : String) (h : msg ≠ "PONG") :
    (onWebsocketMsg decode s msg).1 = s := by
  unfold onWebsocketMsg
  simp only [if_neg h]
  split
  · split
    · rfl
    · split <;> rfl
  · rfl

theorem opStep_heartbeat_le (decode : String → Option Json) (s : BotState)
    (op : BotOp) (c : Nat) (h : s.heartbeatTimes ≤ c) :
    (opStep decode s op).1.heartbeatTimes ≤
      (if isReply op then 0
       else c + (opStep decode s op).2.countP isPingSend) := by
  cases op with
  | openSignal =>
    simp only [opStep, wsOpen, ping, isReply]
    split
    · simpa [isPingSend] using h
    · simp [isPingSend, List.countP, List.countP.go]; omega
  | tick =>
    simp only [opStep, ping, isReply]
    split
    · simpa [isPingSend] using h
    · simp [isPingSend, List.countP, List.countP.go]; omega
  | frame msg =>
    by_cases hm : msg = "PONG"
    · subst hm
      simp [opStep, handleRawFrame, onWebsocketMsg, isReply]
    · have hstate := onWebsocketMsg_state_of_ne_pong decode s msg hm
      have hrep : isReply (BotOp.frame msg) = false := by simp [isReply, hm]
      simp only [opStep, handleRawFrame, hrep, Bool.false_eq_true, if_false]
      simp only [hstate]
      omega
  | stopOp => simpa [opStep, stop, isReply] using Nat.le_add_right_of_le h
  | startOp ls ts path =>
    simpa [opStep, startCore, isReply] using Nat.le_add_right_of_le h

theorem runCount_invariant (decode : String → Option Json)
    (ops : List BotOp) :
    ∀ (s : BotState) (c : Nat), s.heartbeatTimes ≤ c →
      (runCount decode (s, c) ops).1.heartbeatTimes ≤
        (runCount decode (s, c) ops).2 := by
  induction ops with
  | nil => intro s c h; simpa [runCount] using h
  | cons op rest ih =>
    intro s c h
    simp only [runCount]
    exact ih _ _ (opStep_heartbeat_le decode s op c h)

theorem runCount_append (decode : String → Option Json)
    (ops : List BotOp) (op : BotOp) :
    ∀ sc : BotState × Nat,
      runCount decode sc (ops ++ [op]) =
        runCount decode (runCount decode sc ops) [op] := by
  induction ops with
  | nil => intro sc; rfl
  | cons o rest ih => intro sc; simpa [runCount] using ih _

/-- C2: for every decoder and every sequence of operations (heartbeat ticks
interleaved with inbound frames, liveness replies included) starting from a
freshly opened connection, the missed-heartbeat counter never exceeds the
number of probe frames sent since the most recent liveness reply (or since
the connection opened, when no reply has arrived), and it is 0 immediately
after a reply is processed. -/
theorem heartbeat_counter_bounded (decode : String → Option Json)
    (s : BotState) (ops : List BotOp) (h : s.heartbeatTimes = 0) :
    ((runCount decode
        ((wsOpen s).1, (wsOpen s).2.countP isPingSend) ops).1.heartbeatTimes ≤
      (runCount decode
        ((wsOpen s).1, (wsOpen s).2.countP isPingSend) ops).2) ∧
    ((runCount decode ((wsOpen s).1, (wsOpen s).2.countP isPingSend)
        (ops ++ [BotOp.frame "PONG"])).1.heartbeatTimes = 0) := by
  have hbase : (wsOpen s).1.heartbeatTimes ≤ (wsOpen s).2.countP isPingSend := by
    simp [wsOpen, ping, h, isPingSend, List.countP, List.countP.go]
  refine ⟨runCount_invariant decode ops _ _ hbase, ?_⟩
  rw [runCount_append]
  simp [runCount, opStep, handleRawFrame, onWebsocketMsg]

/-- C2 witness: the bound instantiated at a fresh state and a concrete
tick/reply sequence. -/
theorem heartbeat_counter_bounded_witness :
    (runCount (fun _ => none)
      ((wsOpen (initState "/w" [])).1,
        (wsOpen (initState "/w" [])).2.countP isPingSend)
      [BotOp.tick, BotOp.frame "PONG", BotOp.tick]).1.heartbeatTimes ≤
    (runCount (fun _ => none)
      ((wsOpen (initState "/w" [])).1,
        (wsOpen (initState "/w" [])).2.countP isPingSend)
      [BotOp.tick, BotOp.frame "PONG", BotOp.tick]).2 :=
  (heartbeat_counter_bounded (fun _ => none) (initState "/w" [])
    [BotOp.tick, BotOp.frame "PONG", BotOp.tick] rfl).1

theorem pong_reset_unique (decode : String → Option Json) (s : BotState)
    (op : BotOp) (h : s.heartbeatTimes ≠ 0)
    (h0 : (opStep decode s op).1.heartbeatTimes = 0) :
    op = BotOp.frame "PONG" := by
  cases op with
  | openSignal =>
    exfalso
    simp only [opStep, wsOpen, ping] at h0
    split at h0 <;> simp_all
  | tick =>
    exfalso
    simp only [opStep, ping] at h0
    split at h0 <;> simp_all
  | frame msg =>
    by_cases hm : msg = "PONG"
    · rw [hm]
    · exfalso
      have hstate := onWebsocketMsg_state_of_ne_pong decode s msg hm
      simp only [opStep, handleRawFrame] at h0
      simp only [hstate] at h0
      exact h h0
  | stopOp => exact absurd h0 (by simpa [opStep, stop] using h)
  | startOp ls ts path => exact absurd h0 (by simpa [opStep, startCore] using h)

/-- C3: processing an inbound frame whose text is exactly `PONG` resets the
missed-heartbeat counter to 0 and returns having posted nothing to the
`user-message` or `command-message` topics; and reply handling is the only
operation that sets a nonzero counter back to 0. -/
theorem pong_resets_counter :
    (∀ (decode : String → Option Json) (s : BotState),
      onWebsocketMsg decode s "PONG" =
        ({ s with heartbeatTimes := 0 }, [Effect.logDebug "PONG"]) ∧
      (onWebsocketMsg decode s "PONG").2.countP isUserPost = 0 ∧
      (onWebsocketMsg decode s "PONG").2.countP isCommandPost = 0) ∧
    (∀ (decode : String → Option Json) (s : BotState) (op : BotOp),
      s.heartbeatTimes ≠ 0 → (opStep decode s op).1.heartbeatTimes = 0 →
      op = BotOp.frame "PONG") := by
  refine ⟨fun decode s => ⟨rfl, rfl, rfl⟩, ?_⟩
  exact fun decode s op h h0 => pong_reset_unique decode s op h h0

/-- C3 witness: the reset behaviour and the uniqueness direction evaluated at
a concrete state with a nonzero counter. -/
theorem pong_resets_counter_witness :
    onWebsocketMsg (fun _ => none) (initState "/w" []) "PONG" =
      ({ initState "/w" [] with heartbeatTimes := 0 },
       [Effect.logDebug "PONG"]) ∧
    BotOp.frame "PONG" = BotOp.frame "PONG" := by
  constructor
  · exact (pong_resets_counter.1 (fun _ => none) (initState "/w" [])).1
  · exact pong_resets_counter.2 (fun _ => none)
      { initState "/w" [] with heartbeatTimes := 3 } (BotOp.frame "PONG")
      (by simp [initState]) rfl

/-- C4: an inbound frame shaped like a JSON object (starts with `\x7b`, ends
with `\x7d`) whose decode fails is swallowed: the handler logs the error and
returns normally with the state (open flag, missed-heartbeat counter)
unchanged and nothing posted to the `user-message` or `command-message`
topics. -/
theorem malformed_json_swallowed (decode : String → Option Json)
    (s : BotState) (f : String) (h1 : strStartsWith f "\x7b" = true)
    (h2 : strEndsWith f "\x7d" = true) (h3 : decode f = none) :
    onWebsocketMsg decode s f =
      (s, [Effect.logDebug f, Effect.logError "SyntaxError"]) := by
  have hne : f ≠ "PONG" := fun hf => by
    rw [hf] at h1
    exact absurd h1 (by decide)
  unfold onWebsocketMsg
  rw [if_neg hne]
  simp [h1, h2, h3]

/-- C4 witness: the swallow behaviour at a concrete malformed frame and a
decoder that rejects it. -/
theorem malformed_json_swallowed_witness :
    onWebsocketMsg (fun _ => none) (initState "/w" []) "\x7boops\x7d" =
      (initState "/w" [],
       [Effect.logDebug "\x7boops\x7d", Effect.logError "SyntaxError"]) :=
  malformed_json_swallowed (fun _ => none) (initState "/w" []) "\x7boops\x7d"
    (by decide) (by decide) rfl

/-- C6: `stop` first posts a pre-stop topic, closes the transport only when
the open flag is set, and posts `after-stop` last; stopping a never-opened
connection performs no close and raises no error (the operation completes
normally with the state unchanged). -/
theorem stop_sequence (s : BotState) :
    ((stop s).1 = s) ∧
    ((stop s).2.head? = some (Effect.postTopic "before-start")) ∧
    ((stop s).2.getLast? = some (Effect.postTopic "after-stop")) ∧
    ((stop s).2.any isClose = s.wsOpened) ∧
    (s.wsOpened = false → (stop s).2 =
      [Effect.postTopic "before-start", Effect.postTopic "after-stop"]) := by
  cases hw : s.wsOpened <;> simp [stop, hw, isClose]

/-- C6 witness: `stop` on a freshly constructed (never-opened) bot issues no
close. -/
theorem stop_sequence_witness :
    (stop (initState "/w" [])).2 =
      [Effect.postTopic "before-start", Effect.postTopic "after-stop"] :=
  (stop_sequence (initState "/w" [])).2.2.2.2 rfl

/-- C7 counterexample: contrary to the claim, the `PONG` frame IS published
on the event bus — the transport's message signal posts the raw frame on the
`websocket-message` topic before the connection-layer handler consumes it. -/
theorem pong_reaches_bus_counterexample :
    ((handleRawFrame (fun _ => none) (initState "/w" []) "PONG").2.countP
        isWsPost = 1) ∧
    ((handleRawFrame (fun _ => none) (initState "/w" []) "PONG").2.head? =
      some (Effect.postWebsocketMessage "PONG")) := ⟨rfl, rfl⟩

/-- C7 amended: every inbound `PONG` frame is posted exactly once on the
`websocket-message` topic, like any raw frame; its registered handler resets
the missed-heartbeat counter, and no event derived from it ever reaches the
`user-message` or `command-message` topics. -/
theorem pong_terminal_amended (decode : String → Option Json) (s : BotState) :
    handleRawFrame decode s "PONG" =
      ({ s with heartbeatTimes := 0 },
       [Effect.postWebsocketMessage "PONG", Effect.logDebug "PONG"]) ∧
    ((handleRawFrame decode s "PONG").2.countP isUserPost = 0) ∧
    ((handleRawFrame decode s "PONG").2.countP isCommandPost = 0) :=
  ⟨rfl, rfl, rfl⟩

theorem opStep_preserves_wsOpened (decode : String → Option Json)
    (s : BotState) (op : BotOp) (h : s.wsOpened = true) :
    (opStep decode s op).1.wsOpened = true := by
  cases op with
  | openSignal => simp only [opStep, wsOpen, ping]; split <;> rfl
  | tick => simp only [opStep, ping]; split <;> simpa using h
  | frame msg =>
    by_cases hm : msg = "PONG"
    · subst hm; simpa [opStep, handleRawFrame, onWebsocketMsg] using h
    · have hstate := onWebsocketMsg_state_of_ne_pong decode s msg hm
      simp only [opStep, handleRawFrame]
      simpa [hstate] using h
  | stopOp => simpa [opStep, stop] using h
  | startOp ls ts path => simpa [opStep, startCore] using h

theorem runOps_preserves_wsOpened (decode : String → Option Json)
    (ops : List BotOp) :
    ∀ s : BotState, s.wsOpened = true →
      (runOps decode s ops).1.wsOpened = true := by
  induction ops with
  | nil => intro s h; simpa [runOps] using h
  | cons op rest ih =>
    intro s h
    simp only [runOps]
    exact ih (opStep decode s op).1 (opStep_preserves_wsOpened decode s op h)

/-- C10: the open flag is set by the transport's open signal and never
cleared again by any operation — not by `stop`, not by heartbeat-failure
termination — so a stop after any sequence of further operations still
issues a close on the transport. -/
theorem wsOpened_never_cleared :
    (∀ (decode : String → Option Json) (s : BotState),
      (opStep decode s BotOp.openSignal).1.wsOpened = true) ∧
    (∀ (decode : String → Option Json) (s : BotState) (op : BotOp),
      s.wsOpened = true → (opStep decode s op).1.wsOpened = true) ∧
    (∀ (decode : String → Option Json) (s : BotState) (ops : List BotOp),
      s.wsOpened = true →
      (stop (runOps decode s ops).1).2.any isClose = true) := by
  refine ⟨?_, fun d s op h => opStep_preserves_wsOpened d s op h, ?_⟩
  · intro decode s
    simp only [opStep, wsOpen, ping]
    split <;> rfl
  · intro decode s ops h
    have hw := runOps_preserves_wsOpened decode ops s h
    simp [stop, hw, isClose]

/-- C10 witness: after a stop and a terminating run of ticks, a later stop on
the same opened instance still issues a close. -/
theorem wsOpened_never_cleared_witness :
    (stop (runOps (fun _ => none) (BotState.mk 0 true (some (Json.str "/w")) [])
      [BotOp.stopOp, BotOp.tick, BotOp.tick]).1).2.any isClose = true :=
  wsOpened_never_cleared.2.2 (fun _ => none)
    (BotState.mk 0 true (some (Json.str "/w")) [])
    [BotOp.stopOp, BotOp.tick, BotOp.tick] rfl

/-- Two `before-start` listeners at the default priority, registered in this
order: the first returns path `A`, the second path `B`. -/
def c5Listeners : List BeforeStartListener :=
  [⟨100, fun _ => some (Json.str "A")⟩, ⟨100, fun _ => some (Json.str "B")⟩]

/-- C5 counterexample: with two registered `before-start` listeners whose
returned paths differ, `start` adopts `args[1]` of the post result — the
second listener's return value `B` — not the first listener's `A`. -/
theorem start_adoption_counterexample :
    ((postBeforeStart c5Listeners "/w").get? 0 =
      some (some (Json.str "A"))) ∧
    ((startCore c5Listeners "ts" "/w" (initState "/w" [])).1.path =
      some (Json.str "B")) ∧
    ¬ (startCore c5Listeners "ts" "/w" (initState "/w" [])).1.path =
      some (Json.str "A") := by
  refine ⟨rfl, rfl, fun h => ?_⟩
  have h' : Json.str "B" = Json.str "A" := Option.some.inj h
  exact absurd (Json.str.inj h') (by decide)

/-- C5 amended: after posting `before-start`, the orchestrator adopts, as the
working path, index 1 of the array of per-listener return values — the value
returned by the second listener in execution order (undefined when fewer
than two listeners are registered) — not the first listener's. -/
theorem start_adopts_second_listener (ls : List BeforeStartListener)
    (ts requestedPath : String) (s : BotState)
    (h : 1 < (execOrder ls).length) :
    (startCore ls ts requestedPath s).1.path =
      ((execOrder ls).get ⟨1, h⟩).callback requestedPath := by
  simp only [startCore, startAdopted, postBeforeStart]
  rw [List.get?_map, List.get?_eq_get h]
  simp

/-- C5 amended witness: the adoption evaluated on the two concrete
listeners. -/
theorem start_adopts_second_listener_witness :
    (1 < (execOrder c5Listeners).length) ∧
    ((startCore c5Listeners "ts" "/w" (initState "/w" [])).1.path =
      some (Json.str "B")) :=
  ⟨by decide,
   start_adopts_second_listener c5Listeners "ts" "/w" (initState "/w" [])
     (by decide)⟩

theorem exceptBindOk {α β : Type} (a : α) (f : α → Except String β) :
    (Except.ok a : Except String α) >>= f = f a := rfl

theorem exceptBindError {α β : Type} (e : String) (f : α → Except String β) :
    (Except.error e : Except String α) >>= f = Except.error e := rfl

/-- C9: frames that decode to partially-formed structures never crash the
classifier: an empty frame is ignored; a JSON object with no discriminator
yields no event and no error; a `type:"5"` object whose `user_info` object
lacks `user_base_info` is delivered downstream with the sender undefined
(the partial decoded structure, unvalidated); a `type:"5"` object with no
`user_info` at all raises a `TypeError` that is caught and logged, the
handler returning normally with the state unchanged. -/
theorem incomplete_frames_never_crash :
    (∀ (decode : String → Option Json) (s : BotState),
      onWebsocketMsg decode s "" = (s, [Effect.logDebug ""])) ∧
    (∀ (decode : String → Option Json) (s : BotState) (f : String)
      (fs : List (String × Json)),
      strStartsWith f "\x7b" = true → strEndsWith f "\x7d" = true →
      decode f = some (Json.obj fs) → lookupField fs "type" = none →
      onWebsocketMsg decode s f = (s, [Effect.logDebug f])) ∧
    (∀ (decode : String → Option Json) (s : BotState) (f : String)
      (fs ds us : List (String × Json)),
      strStartsWith f "\x7b" = true → strEndsWith f "\x7d" = true →
      decode f = some (Json.obj fs) →
      lookupField fs "type" = some (Json.str "5") →
      lookupField fs "data" = some (Json.obj ds) →
      lookupField ds "user_info" = some (Json.obj us) →
      lookupField us "user_base_info" = none →
      onWebsocketMsg decode s f =
        (s, [Effect.logDebug f,
             Effect.postUserMessage none (some (Json.obj ds))])) ∧
    (∀ (decode : String → Option Json) (s : BotState) (f : String)
      (fs ds : List (String × Json)),
      strStartsWith f "\x7b" = true → strEndsWith f "\x7d" = true →
      decode f = some (Json.obj fs) →
      lookupField fs "type" = some (Json.str "5") →
      lookupField fs "data" = some (Json.obj ds) →
      lookupField ds "user_info" = none →
      onWebsocketMsg decode s f =
        (s, [Effect.logDebug f, Effect.logError "TypeError"])) := by
  have hne : ∀ f : String, strStartsWith f "\x7b" = true → f ≠ "PONG" := by
    intro f h1 hf
    rw [hf] at h1
    exact absurd h1 (by decide)
  refine ⟨fun decode s => rfl, ?_, ?_, ?_⟩
  · intro decode s f fs h1 h2 h3 h4
    unfold onWebsocketMsg
    rw [if_neg (hne f h1)]
    simp [h1, h2, h3, h4, classify, jsGet, isStrVal, exceptBindOk, exceptBindError, pure, Except.pure]
  · intro decode s f fs ds us h1 h2 h3 h4 h5 h6 h7
    unfold onWebsocketMsg
    rw [if_neg (hne f h1)]
    simp [h1, h2, h3, h4, h5, h6, h7, classify, jsGet, isStrVal, exceptBindOk, exceptBindError, pure, Except.pure]
  · intro decode s f fs ds h1 h2 h3 h4 h5 h6
    unfold onWebsocketMsg
    rw [if_neg (hne f h1)]
    simp [h1, h2, h3, h4, h5, h6, classify, jsGet, isStrVal, exceptBindOk, exceptBindError, pure, Except.pure]

/-- C9 witness: the four partial-structure cases evaluated at concrete
frames and decoders. -/
theorem incomplete_frames_never_crash_witness :
    (onWebsocketMsg (fun _ => none) (initState "/w" []) "" =
      (initState "/w" [], [Effect.logDebug ""])) ∧
    (onWebsocketMsg (fun _ => some (Json.obj [])) (initState "/w" [])
        "\x7b\x7d" =
      (initState "/w" [], [Effect.logDebug "\x7b\x7d"])) ∧
    (onWebsocketMsg
        (fun _ => some (Json.obj [("type", Json.str "5"),
          ("data", Json.obj [("user_info", Json.obj [])])]))
        (initState "/w" []) "\x7b\x7d" =
      (initState "/w" [],
       [Effect.logDebug "\x7b\x7d",
        Effect.postUserMessage none
          (some (Json.obj [("user_info", Json.obj [])]))])) ∧
    (onWebsocketMsg
        (fun _ => some (Json.obj [("type", Json.str "5"),
          ("data", Json.obj [])]))
        (initState "/w" []) "\x7b\x7d" =
      (initState "/w" [],
       [Effect.logDebug "\x7b\x7d", Effect.logError "TypeError"])) := by
  refine ⟨incomplete_frames_never_crash.1 (fun _ => none) _, ?_, ?_, ?_⟩
  · exact incomplete_frames_never_crash.2.1 (fun _ => some (Json.obj []))
      (initState "/w" []) "\x7b\x7d" [] (by decide) (by decide) rfl rfl
  · exact incomplete_frames_never_crash.2.2.1
      (fun _ => some (Json.obj [("type", Json.str "5"),
        ("data", Json.obj [("user_info", Json.obj [])])]))
      (initState "/w" []) "\x7b\x7d" _ _ []
      (by decide) (by decide) rfl rfl rfl rfl rfl
  · exact incomplete_frames_never_crash.2.2.2
      (fun _ => some (Json.obj [("type", Json.str "5"),
        ("data", Json.obj [])]))
      (initState "/w" []) "\x7b\x7d" _ []
      (by decide) (by decide) rfl rfl rfl rfl

/-- Pairwise distinctness of the first `k` rotation candidate names for a
timestamp: a decidable, bounded form of the (true, but repr-theoretic) fact
that distinct counters yield distinct `ts-count.log` names. -/
def candsDistinctUpTo (ts : String) (k : Nat) : Prop :=
  ∀ c < k, ∀ c' < k, candName ts c = candName ts c' → c = c'

theorem rotate_target_exists (files : List String) (ts : String)
    (hd : candsDistinctUpTo ts (files.length + 1)) :
    ∃ name, rotateTarget files ts = some name ∧ name ∉ files ∧
      ∃ c, c < files.length + 1 ∧ name = candName ts c := by
  have hfree : ∃ c ∈ List.range (files.length + 1), candName ts c ∉ files := by
    by_contra hall
    push_neg at hall
    have hnd : ((List.range (files.length + 1)).map (candName ts)).Nodup := by
      refine List.Nodup.map_on ?_ (List.nodup_range _)
      intro x hx y hy hxy
      exact hd x (List.mem_range.mp hx) y (List.mem_range.mp hy) hxy
    have hsub : ((List.range (files.length + 1)).map (candName ts)) ⊆ files := by
      intro a ha
      obtain ⟨c, hc, rfl⟩ := List.mem_map.mp ha
      exact hall c hc
    have hlen := (List.subperm_of_subset hnd hsub).length_le
    simp only [List.length_map, List.length_range] at hlen
    omega
  obtain ⟨c, hc, hcfree⟩ := hfree
  have hsome : ((List.range (files.length + 1)).find?
      (fun c => ¬ candName ts c ∈ files)).isSome := by
    rw [List.find?_isSome]
    exact ⟨c, hc, by simpa using hcfree⟩
  obtain ⟨c0, hc0⟩ := Option.isSome_iff_exists.mp hsome
  refine ⟨candName ts c0, ?_, ?_, c0, ?_, rfl⟩
  · simp only [rotateTarget, hc0, Option.map_some']
  · simpa using List.find?_some hc0
  · exact List.mem_range.mp (List.mem_of_find?_eq_some hc0)

theorem rotateIfNeeded_spec (files : List String) (ts : String)
    (hlat : "latest.log" ∈ files)
    (hd : candsDistinctUpTo ts (files.length + 1)) :
    ∃ name, rotateIfNeeded files ts =
        (name :: files.erase "latest.log",
         [Effect.rename "latest.log" name]) ∧
      name ∉ files ∧ ∃ c, c < files.length + 1 ∧ name = candName ts c := by
  obtain ⟨name, hrt, hnm, c, hc, hceq⟩ := rotate_target_exists files ts hd
  exact ⟨name, by simp [rotateIfNeeded, hlat, hrt], hnm, c, hc, hceq⟩

/-- C8: when `latest.log` exists at startup it is renamed to a
timestamp-suffixed candidate name that does not collide with any existing
file; starting twice in the same directory without deleting `latest.log`
renames it to two distinct timestamped names, never overwriting an existing
log file.  The distinctness hypotheses state (in decidable, bounded form)
that distinct rotation counters render to distinct file names. -/
theorem log_rotation_two_runs (ls : List BeforeStartListener)
    (ts1 ts2 p1 p2 : String) (s : BotState)
    (hlat : "latest.log" ∈ s.files)
    (hd1 : candsDistinctUpTo ts1 (s.files.length + 1))
    (hd2 : candsDistinctUpTo ts2 (s.files.length + 2)) :
    ∃ name1 name2,
      Effect.rename "latest.log" name1 ∈ (startCore ls ts1 p1 s).2 ∧
      Effect.rename "latest.log" name2 ∈
        (startCore ls ts2 p2 (startCore ls ts1 p1 s).1).2 ∧
      name1 ∉ s.files ∧
      name1 ∈ (startCore ls ts1 p1 s).1.files ∧
      name2 ∉ (startCore ls ts1 p1 s).1.files ∧
      name2 ≠ name1 ∧
      (∃ c, name1 = candName ts1 c) ∧ (∃ c, name2 = candName ts2 c) := by
  obtain ⟨n1, heq1, hn1, c1, _, hc1eq⟩ := rotateIfNeeded_spec s.files ts1 hlat hd1
  have hs1 : (startCore ls ts1 p1 s).1.files =
      "latest.log" :: n1 :: s.files.erase "latest.log" := by
    simp [startCore, heq1]
  have hpos : 0 < s.files.length := List.length_pos.mpr (List.ne_nil_of_mem hlat)
  have hlen1 : (startCore ls ts1 p1 s).1.files.length = s.files.length + 1 := by
    rw [hs1]
    simp [List.length_erase_of_mem hlat]
    omega
  have hlat2 : "latest.log" ∈ (startCore ls ts1 p1 s).1.files := by
    rw [hs1]; exact List.mem_cons_self _ _
  have hd2' : candsDistinctUpTo ts2 ((startCore ls ts1 p1 s).1.files.length + 1) := by
    rw [hlen1]; exact hd2
  obtain ⟨n2, heq2, hn2, c2, _, hc2eq⟩ :=
    rotateIfNeeded_spec (startCore ls ts1 p1 s).1.files ts2 hlat2 hd2'
  have hmem1 : n1 ∈ (startCore ls ts1 p1 s).1.files := by
    rw [hs1]; exact List.mem_cons_of_mem _ (List.mem_cons_self _ _)
  refine ⟨n1, n2, ?_, ?_, hn1, hmem1, hn2, ?_, ⟨c1, hc1eq⟩, ⟨c2, hc2eq⟩⟩
  · simp [startCore, heq1]
  · generalize (startCore ls ts1 p1 s).1 = s1 at heq2
    simp [startCore, heq2]
  · intro h
    rw [h] at hn2
    exact hn2 hmem1

/-- C8 witness: two starts with the same timestamp over a directory holding
only `latest.log`: the first rotation takes `2024.log`, the second must
disambiguate and neither overwrites. -/
theorem log_rotation_two_runs_witness :
    ∃ name1 name2,
      Effect.rename "latest.log" name1 ∈
        (startCore [] "2024" "/w" (initState "/w" ["latest.log"])).2 ∧
      Effect.rename "latest.log" name2 ∈
        (startCore [] "2024" "/w"
          (startCore [] "2024" "/w" (initState "/w" ["latest.log"])).1).2 ∧
      name1 ∉ (initState "/w" ["latest.log"]).files ∧
      name1 ∈ (startCore [] "2024" "/w" (initState "/w" ["latest.log"])).1.files ∧
      name2 ∉ (startCore [] "2024" "/w" (initState "/w" ["latest.log"])).1.files ∧
      name2 ≠ name1 ∧
      (∃ c, name1 = candName "2024" c) ∧ (∃ c, name2 = candName "2024" c) :=
  log_rotation_two_runs [] "2024" "2024" "/w" "/w" (initState "/w" ["latest.log"])
    (by simp [initState])
    (by unfold candsDistinctUpTo; decide)
    (by unfold candsDistinctUpTo; decide)
